import Mathlib

/-!
Verification of the QOTD discord bot (`src/qotd.c`).

The bot keeps one piece of mutable state, `qotd_message : Option String`
(NULL in C meaning "absent"), plus a boolean guard `is_init` for the
bootstrap.  The two callbacks `on_setqotd` and `on_qotd_timer` are
embedded as pure state transformers that also return the outbound
replies / channel messages / log lines they emit.  C strings are modelled
as Lean `String`s with one `Char` per byte; `snprintf` into a buffer of
`n + 1` bytes becomes `snprintf_trunc n`, keeping the first `n`
characters of the formatted text.
-/

/-- Lumi's user ID (`LUMI_USER_ID` macro). -/
def LUMI_USER_ID : Nat := 905564480082153543

/-- QOTD role ID (`QOTD_ROLE_ID` macro). -/
def QOTD_ROLE_ID : Nat := 1215105959815553096

/-- QOTD channel ID (`QOTD_CHANNEL_ID` macro). -/
def QOTD_CHANNEL_ID : Nat := 1198507295538151434

/-- Application-command option types (`DISCORD_APPLICATION_OPTION_*`):
we only distinguish the string type from every other one. -/
inductive AppOptionType where
  | str
  | other
deriving DecidableEq

/-- One entry of `event->data->options->array`. -/
structure CmdOption where
  type : AppOptionType
  value : String
deriving DecidableEq

/-- The part of `struct discord_interaction` that `on_setqotd` reads. -/
structure InteractionEvent where
  userId : Nat
  username : String
  options : List CmdOption

/-- An interaction response (`discord_create_interaction_response`). -/
structure Reply where
  ephemeral : Bool
  content : String
deriving DecidableEq

/-- A channel message (`discord_create_message`). -/
structure SentMessage where
  channelId : Nat
  content : String
deriving DecidableEq

/-- `snprintf` into a buffer of `n + 1` bytes: the formatted string is
truncated to its first `n` characters. -/
def snprintf_trunc (n : Nat) (s : String) : String := ⟨s.data.take n⟩

/-- The role mention `<@&%llu>` formatted for `QOTD_ROLE_ID`. -/
def roleMention : String := "<@&" ++ toString QOTD_ROLE_ID ++ ">"

/-- The confirmation format string
`"Question of the day has been updated to:\n> \"%s\""` applied to `X`. -/
def conf_format (X : String) : String :=
  "Question of the day has been updated to:\n> \"" ++ X ++ "\""

/-- The daily-publish format string `"<@&%llu> %s"` applied to
`QOTD_ROLE_ID` and `X`. -/
def publish_format (X : String) : String := roleMention ++ " " ++ X

/-- `on_setqotd`: given the current `qotd_message` and the interaction
event, returns the new `qotd_message`, the interaction responses sent,
and the log lines emitted. -/
def on_setqotd (qotd_message : Option String) (event : InteractionEvent) :
    Option String × List Reply × List String :=
  if event.userId ≠ LUMI_USER_ID then
    (qotd_message,
     [⟨true, "Hold up! Only Lumi can update the question of the day..."⟩],
     ["[QOTD] User " ++ event.username ++ " tried to update question of the day"])
  else
    match event.options with
    | [opt] =>
      if opt.type ≠ AppOptionType.str then
        (qotd_message,
         [⟨true, "Invalid command usage, please provide a message!"⟩],
         ["[QOTD] User " ++ event.username ++ " tried to update qotd without providing a message"])
      else
        let response := snprintf_trunc 4000 (conf_format opt.value)
        (some opt.value,
         [⟨true, response⟩],
         ["[QOTD] User " ++ event.username ++ " updated qotd to \"" ++ opt.value ++ "\""])
    | _ =>
      (qotd_message,
       [⟨true, "Invalid command usage, please provide a message!"⟩],
       ["[QOTD] User " ++ event.username ++ " tried to update qotd without providing a message"])

/-- `on_qotd_timer`: given the current `qotd_message`, returns the new
`qotd_message`, the channel messages sent, and the log lines emitted. -/
def on_qotd_timer (qotd_message : Option String) :
    Option String × List SentMessage × List String :=
  match qotd_message with
  | none => (none, [], ["[QOTD] QOTD is not set, skipping..."])
  | some msg =>
    let message := snprintf_trunc 4000 (publish_format msg)
    (none, [⟨QOTD_CHANNEL_ID, message⟩], [])

/-- Actions `bot_main` performs against the client. -/
inductive Registered where
  | schema
  | timer (delay_ms : Nat) (interval_ms : Nat)
deriving DecidableEq

/-- The first-fire computation of `bot_main`.  `time_now` is a UNIX
timestamp in seconds.  `gmtime` / `timegm` with the hour, minute and
second fields overwritten by 20:00:10 yield today's 20:00:10 UTC, i.e.
`time_now / 86400 * 86400 + 72010`; if that target minus the 15-second
margin has already passed, the target moves one day ahead.  The result
is `difftime(time_qotd, time_now)` in seconds. -/
def schedule_delay (time_now : Nat) : Nat :=
  let time_qotd := time_now / 86400 * 86400 + (20 * 3600 + 10)
  let time_qotd := if time_qotd - 15 < time_now then time_qotd + 24 * 60 * 60 else time_qotd
  time_qotd - time_now

/-- `bot_main`, the ready-event callback: given the guard flag
(`is_initialized` in C) and the current time, returns the new flag and
the registrations performed (one command schema overwrite, one interval
timer). -/
def bot_main (inited : Bool) (time_now : Nat) : Bool × List Registered :=
  if inited then (inited, [])
  else
    (true,
     [Registered.schema,
      Registered.timer (schedule_delay time_now * 1000) (24 * 60 * 60 * 1000)])

/-- Run `bot_main` over a whole sequence of ready signals, collecting
every registration performed. -/
def run_readies (inited : Bool) (times : List Nat) : Bool × List Registered :=
  match times with
  | [] => (inited, [])
  | t :: ts =>
    let r := bot_main inited t
    let rest := run_readies r.1 ts
    (rest.1, r.2 ++ rest.2)

/-- The external outcomes `main` depends on: the `ccord_global_init`
return code, whether `discord_config_init` returns a non-NULL client,
and the `discord_run` result code. -/
structure Env where
  global_init_code : Int
  config_init_ok : Bool
  run_code : Int

/-- `initialize_discord`: succeeds (returns a non-NULL client) iff
`ccord_global_init` returns 0 and `discord_config_init` is non-NULL. -/
def init_discord (env : Env) : Bool :=
  if env.global_init_code ≠ 0 then false
  else env.config_init_ok

/-- The process exit status of `main`: `EXIT_FAILURE` (1) when
`initialize_discord` fails, otherwise—whatever code `discord_run`
returned—cleanup runs and `main` returns `EXIT_SUCCESS` (0). -/
def main_exit (env : Env) : Nat :=
  if init_discord env then 0 else 1

/-! ## Helper lemmas -/

/-- `snprintf` does not truncate a string that fits the buffer. -/
theorem snprintf_trunc_of_le (n : Nat) (s : String) (h : s.length ≤ n) :
    snprintf_trunc n s = s := by
  cases s with
  | mk l =>
    simp only [snprintf_trunc]
    rw [List.take_of_length_le]
    simpa [String.length] using h

/-- Length of a truncated string. -/
theorem snprintf_trunc_length (n : Nat) (s : String) :
    (snprintf_trunc n s).length = min n s.length := by
  cases s with
  | mk l => simp [snprintf_trunc, String.length]

/-- Once the guard flag is set, ready signals never register anything. -/
theorem run_readies_inited (times : List Nat) :
    run_readies true times = (true, []) := by
  induction times with
  | nil => rfl
  | cons t ts ih => simp [run_readies, bot_main, ih]

/-- Evaluating `on_setqotd` on a well-formed submission from Lumi. -/
theorem on_setqotd_valid (qotd_message : Option String) (uname X : String) :
    on_setqotd qotd_message ⟨LUMI_USER_ID, uname, [⟨AppOptionType.str, X⟩]⟩ =
      (some X,
       [⟨true, snprintf_trunc 4000 (conf_format X)⟩],
       ["[QOTD] User " ++ uname ++ " updated qotd to \"" ++ X ++ "\""]) := by
  simp [on_setqotd]

/-- A string strictly longer than the buffer is genuinely cut. -/
theorem snprintf_trunc_ne (n : Nat) (s : String) (h : n < s.length) :
    snprintf_trunc n s ≠ s := by
  intro hc
  have hl := congrArg String.length hc
  rw [snprintf_trunc_length] at hl
  omega

/-- Length of the formatted confirmation reply. -/
theorem conf_format_length (X : String) : (conf_format X).length = X.length + 45 := by
  have h1 : ("Question of the day has been updated to:\n> \"" : String).length = 44 := by
    decide
  have h2 : ("\"" : String).length = 1 := by decide
  simp only [conf_format, String.length_append, h1, h2]
  omega

/-- Length of the formatted daily publish message. -/
theorem publish_format_length (X : String) :
    (publish_format X).length = X.length + 24 := by
  have h1 : roleMention.length = 23 := by decide
  have h2 : (" " : String).length = 1 := by decide
  simp only [publish_format, String.length_append, h1, h2]
  omega

/-! ## Claims -/

/-- C7: invoking the daily publisher while `qotd_message` is absent sends
no outbound message and leaves the state absent (only a skip notice is
logged). -/
theorem timer_skips_when_absent :
    on_qotd_timer none = (none, [], ["[QOTD] QOTD is not set, skipping..."]) := rfl

/-- C3: any invocation whose caller is not `LUMI_USER_ID` leaves
`qotd_message` unchanged and produces exactly one ephemeral rejection
reply, whatever the option list looks like — the option-shape check is
never reached, so even malformed options yield the same rejection. -/
theorem setqotd_rejects_unauthorized (qotd_message : Option String)
    (event : InteractionEvent) (h : event.userId ≠ LUMI_USER_ID) :
    on_setqotd qotd_message event =
      (qotd_message,
       [⟨true, "Hold up! Only Lumi can update the question of the day..."⟩],
       ["[QOTD] User " ++ event.username ++ " tried to update question of the day"]) := by
  simp [on_setqotd, h]

/-- Witness for C3 at a concrete unauthorized caller (with a malformed,
empty option list, showing the shape check is not reached). -/
theorem setqotd_rejects_unauthorized_witness :
    on_setqotd (some "old question") ⟨42, "Mallory", []⟩ =
      (some "old question",
       [⟨true, "Hold up! Only Lumi can update the question of the day..."⟩],
       ["[QOTD] User Mallory tried to update question of the day"]) :=
  setqotd_rejects_unauthorized (some "old question") ⟨42, "Mallory", []⟩ (by decide)

/-- C6: an invocation by Lumi whose option list is not exactly one
string-typed option leaves `qotd_message` unchanged and produces exactly
one ephemeral usage-error reply. -/
theorem setqotd_rejects_malformed (qotd_message : Option String)
    (event : InteractionEvent) (hid : event.userId = LUMI_USER_ID)
    (h : ¬ ∃ opt, event.options = [opt] ∧ opt.type = AppOptionType.str) :
    on_setqotd qotd_message event =
      (qotd_message,
       [⟨true, "Invalid command usage, please provide a message!"⟩],
       ["[QOTD] User " ++ event.username ++ " tried to update qotd without providing a message"]) := by
  obtain ⟨uid, uname, opts⟩ := event
  simp only at hid h
  subst hid
  match hopts : opts with
  | [] => simp [on_setqotd]
  | [opt] =>
    have hne : opt.type ≠ AppOptionType.str := fun hc => h ⟨opt, rfl, hc⟩
    simp [on_setqotd, hne]
  | a :: b :: rest => simp [on_setqotd]

/-- Witness for C6: Lumi submits two options. -/
theorem setqotd_rejects_malformed_witness :
    on_setqotd (some "old question")
        ⟨LUMI_USER_ID, "Lumi",
         [⟨AppOptionType.str, "a"⟩, ⟨AppOptionType.str, "b"⟩]⟩ =
      (some "old question",
       [⟨true, "Invalid command usage, please provide a message!"⟩],
       ["[QOTD] User Lumi tried to update qotd without providing a message"]) :=
  setqotd_rejects_malformed (some "old question")
    ⟨LUMI_USER_ID, "Lumi", [⟨AppOptionType.str, "a"⟩, ⟨AppOptionType.str, "b"⟩]⟩
    rfl (by rintro ⟨opt, hopt, -⟩; simp at hopt)

/-- A 4000-character submission, long enough to overflow the reply buffer. -/
def longB : String := ⟨List.replicate 4000 'b'⟩

/-- A 4000-character submission, long enough to overflow the publish buffer. -/
def longA : String := ⟨List.replicate 4000 'a'⟩

/-- A 4100-character submission used to exhibit truncation. -/
def longQ : String := ⟨List.replicate 4100 'q'⟩

/-- C2 counterexample: when Lumi submits a 4000-character message, the
formatted confirmation (4045 characters) no longer fits the 4001-byte
buffer, so the reply is not the full `Question of the day has been
updated to:\n> "X"` text the claim promises for every `X`. -/
theorem setqotd_confirmation_cut :
    (on_setqotd none ⟨LUMI_USER_ID, "Lumi", [⟨AppOptionType.str, longB⟩]⟩).2.1 ≠
      [⟨true, conf_format longB⟩] := by
  rw [on_setqotd_valid]
  have hlen : 4000 < (conf_format longB).length := by
    rw [conf_format_length]
    have : longB.length = 4000 := List.length_replicate 4000 'b'
    omega
  simp only [ne_eq, List.cons.injEq, and_true, Reply.mk.injEq, true_and]
  exact fun hc => snprintf_trunc_ne 4000 (conf_format longB) hlen hc

/-- C2 (amended): a valid submission by Lumi whose formatted confirmation
fits the 4000-character buffer sets `qotd_message` to `X` (overwriting
any prior value) and produces exactly one ephemeral confirmation reply
`Question of the day has been updated to:\n> "X"`; for longer texts the
reply is truncated to the first 4000 characters (see the truncation
theorem). -/
theorem setqotd_updates_and_confirms (qotd_message : Option String)
    (uname X : String) (h : (conf_format X).length ≤ 4000) :
    on_setqotd qotd_message ⟨LUMI_USER_ID, uname, [⟨AppOptionType.str, X⟩]⟩ =
      (some X,
       [⟨true, "Question of the day has been updated to:\n> \"" ++ X ++ "\""⟩],
       ["[QOTD] User " ++ uname ++ " updated qotd to \"" ++ X ++ "\""]) := by
  rw [on_setqotd_valid, snprintf_trunc_of_le 4000 (conf_format X) h]
  rfl

/-- Witness for the amended C2 at a concrete short question. -/
theorem setqotd_updates_and_confirms_witness :
    (conf_format "What is your favorite color?").length ≤ 4000 ∧
    on_setqotd (some "old")
        ⟨LUMI_USER_ID, "Lumi", [⟨AppOptionType.str, "What is your favorite color?"⟩]⟩ =
      (some "What is your favorite color?",
       [⟨true, "Question of the day has been updated to:\n> \"What is your favorite color?\""⟩],
       ["[QOTD] User Lumi updated qotd to \"What is your favorite color?\""]) := by
  refine ⟨by decide, ?_⟩
  rw [setqotd_updates_and_confirms (some "old") "Lumi" "What is your favorite color?"
    (by decide)]
  decide

/-- C1 counterexample: submitting a 4000-character text and firing the
timer does not send `<role-mention> X` — the publish buffer cuts the
4024-character formatted message down to 4000 characters. -/
theorem qotd_round_trip_cex :
    (on_qotd_timer
        (on_setqotd none ⟨LUMI_USER_ID, "Lumi", [⟨AppOptionType.str, longA⟩]⟩).1).2.1 ≠
      [⟨QOTD_CHANNEL_ID, publish_format longA⟩] := by
  rw [on_setqotd_valid]
  have hlen : 4000 < (publish_format longA).length := by
    rw [publish_format_length]
    have : longA.length = 4000 := List.length_replicate 4000 'a'
    omega
  simp only [on_qotd_timer, ne_eq, List.cons.injEq, and_true, SentMessage.mk.injEq,
    true_and]
  exact fun hc => snprintf_trunc_ne 4000 (publish_format longA) hlen hc

/-- C1 (amended): for every text `X` whose formatted publish message fits
the 4000-character buffer, a valid submission of `X` followed by one
timer fire sends exactly one message `<@&QOTD_ROLE_ID> X` to the fixed
channel, leaves `qotd_message` absent, and a second fire sends nothing. -/
theorem qotd_round_trip (qotd_message : Option String) (uname X : String)
    (h : (publish_format X).length ≤ 4000) :
    (on_setqotd qotd_message ⟨LUMI_USER_ID, uname, [⟨AppOptionType.str, X⟩]⟩).1 = some X ∧
    (on_qotd_timer
        (on_setqotd qotd_message ⟨LUMI_USER_ID, uname, [⟨AppOptionType.str, X⟩]⟩).1).2.1 =
      [⟨QOTD_CHANNEL_ID, roleMention ++ " " ++ X⟩] ∧
    (on_qotd_timer
        (on_setqotd qotd_message ⟨LUMI_USER_ID, uname, [⟨AppOptionType.str, X⟩]⟩).1).1 = none ∧
    (on_qotd_timer
        (on_qotd_timer
          (on_setqotd qotd_message ⟨LUMI_USER_ID, uname,
            [⟨AppOptionType.str, X⟩]⟩).1).1).2.1 = [] := by
  rw [on_setqotd_valid]
  refine ⟨rfl, ?_, rfl, rfl⟩
  show (on_qotd_timer (some X)).2.1 = _
  simp only [on_qotd_timer]
  rw [snprintf_trunc_of_le 4000 (publish_format X) h]
  rfl

/-- Witness for the amended C1 at the concrete question from the spec's
scenario. -/
theorem qotd_round_trip_witness :
    (publish_format "What's your favorite color?").length ≤ 4000 ∧
    ((on_setqotd none ⟨LUMI_USER_ID, "Lumi",
        [⟨AppOptionType.str, "What's your favorite color?"⟩]⟩).1 =
      some "What's your favorite color?" ∧
    (on_qotd_timer
        (on_setqotd none ⟨LUMI_USER_ID, "Lumi",
          [⟨AppOptionType.str, "What's your favorite color?"⟩]⟩).1).2.1 =
      [⟨QOTD_CHANNEL_ID, roleMention ++ " " ++ "What's your favorite color?"⟩] ∧
    (on_qotd_timer
        (on_setqotd none ⟨LUMI_USER_ID, "Lumi",
          [⟨AppOptionType.str, "What's your favorite color?"⟩]⟩).1).1 = none ∧
    (on_qotd_timer
        (on_qotd_timer
          (on_setqotd none ⟨LUMI_USER_ID, "Lumi",
            [⟨AppOptionType.str, "What's your favorite color?"⟩]⟩).1).1).2.1 = []) :=
  ⟨by decide, qotd_round_trip none "Lumi" "What's your favorite color?" (by decide)⟩

/-- C9: both outbound texts are formatted into 4001-byte buffers; when
the formatted text exceeds 4000 characters, the outbound reply / publish
message is truncated to exactly 4000 characters (a strict cut), while
`qotd_message` still holds the full submitted string. -/
theorem qotd_buffer_truncation (qotd_message : Option String) (uname X : String)
    (h1 : 4000 < (conf_format X).length) (h2 : 4000 < (publish_format X).length) :
    (on_setqotd qotd_message ⟨LUMI_USER_ID, uname, [⟨AppOptionType.str, X⟩]⟩).1 = some X ∧
    (on_setqotd qotd_message ⟨LUMI_USER_ID, uname, [⟨AppOptionType.str, X⟩]⟩).2.1 =
      [⟨true, snprintf_trunc 4000 (conf_format X)⟩] ∧
    (snprintf_trunc 4000 (conf_format X)).length = 4000 ∧
    snprintf_trunc 4000 (conf_format X) ≠ conf_format X ∧
    (on_qotd_timer (some X)).2.1 =
      [⟨QOTD_CHANNEL_ID, snprintf_trunc 4000 (publish_format X)⟩] ∧
    (snprintf_trunc 4000 (publish_format X)).length = 4000 ∧
    snprintf_trunc 4000 (publish_format X) ≠ publish_format X := by
  refine ⟨?_, ?_, ?_, ?_, ?_, ?_, ?_⟩
  · rw [on_setqotd_valid]
  · rw [on_setqotd_valid]
  · rw [snprintf_trunc_length]; omega
  · exact snprintf_trunc_ne 4000 _ h1
  · rfl
  · rw [snprintf_trunc_length]; omega
  · exact snprintf_trunc_ne 4000 _ h2

/-- Witness for C9 at a concrete 4100-character submission. -/
theorem qotd_buffer_truncation_witness :
    (4000 < (conf_format longQ).length ∧ 4000 < (publish_format longQ).length) ∧
    ((on_setqotd none ⟨LUMI_USER_ID, "Lumi", [⟨AppOptionType.str, longQ⟩]⟩).1 = some longQ ∧
    (on_setqotd none ⟨LUMI_USER_ID, "Lumi", [⟨AppOptionType.str, longQ⟩]⟩).2.1 =
      [⟨true, snprintf_trunc 4000 (conf_format longQ)⟩] ∧
    (snprintf_trunc 4000 (conf_format longQ)).length = 4000 ∧
    snprintf_trunc 4000 (conf_format longQ) ≠ conf_format longQ ∧
    (on_qotd_timer (some longQ)).2.1 =
      [⟨QOTD_CHANNEL_ID, snprintf_trunc 4000 (publish_format longQ)⟩] ∧
    (snprintf_trunc 4000 (publish_format longQ)).length = 4000 ∧
    snprintf_trunc 4000 (publish_format longQ) ≠ publish_format longQ) := by
  have hq : longQ.length = 4100 := List.length_replicate 4100 'q'
  have h1 : 4000 < (conf_format longQ).length := by rw [conf_format_length]; omega
  have h2 : 4000 < (publish_format longQ).length := by rw [publish_format_length]; omega
  exact ⟨⟨h1, h2⟩, qotd_buffer_truncation none "Lumi" longQ h1 h2⟩

/-- C4 counterexample: started exactly at 20:00:00 UTC (72000 seconds
into the epoch day), the margin test `time_qotd - 15 < time_now`
(19:59:55 < 20:00:00) succeeds, so the target advances a day: the delay
is 86410 seconds, not the 10 seconds the claim states. -/
theorem schedule_delay_at_2000_cex :
    schedule_delay 72000 = 86410 ∧ schedule_delay 72000 ≠ 10 := by decide

/-- C4 (amended): starting at 20:00:00 UTC, the target 20:00:10 minus the
15-second margin (19:59:55) has already passed, so the first fire targets
the NEXT day's 20:00:10: the computed delay is 86410 seconds. -/
theorem schedule_delay_at_2000 (d : Nat) :
    schedule_delay (d * 86400 + 72000) = 86410 := by
  unfold schedule_delay
  simp only []
  split <;> omega

/-- C5: starting at 19:00:00 UTC the first-fire delay is 3610 seconds
(1 h 0 min 10 s); starting at 20:00:06 UTC (the target minus 15 seconds
already elapsed) the fire advances to the next day's 20:00:10, a delay of
86404 seconds. -/
theorem schedule_delay_examples (d : Nat) :
    schedule_delay (d * 86400 + 68400) = 3610 ∧
    schedule_delay (d * 86400 + 72006) = 86404 := by
  constructor <;> (unfold schedule_delay; simp only []; split <;> omega)

/-- C8: the ready-signal bootstrap is idempotent through the guard flag:
over any nonempty sequence of ready signals starting unflagged, exactly
one schema registration and one timer registration happen (on the first
signal, which also sets the flag), and once the flag is set every further
ready signal registers nothing. -/
theorem bootstrap_idempotent (t : Nat) (ts rest : List Nat) :
    run_readies false (t :: ts) =
      (true, [Registered.schema,
              Registered.timer (schedule_delay t * 1000) (24 * 60 * 60 * 1000)]) ∧
    run_readies true rest = (true, []) := by
  refine ⟨?_, run_readies_inited rest⟩
  simp [run_readies, bot_main, run_readies_inited]

/-- C10: the process exit status is 0 exactly when client initialization
succeeded — regardless of the code `discord_run` later returns — and 1
exactly when `initialize_discord` failed. -/
theorem main_exit_codes (env : Env) :
    (main_exit env = 0 ↔ init_discord env = true) ∧
    (main_exit env = 1 ↔ init_discord env = false) ∧
    (∀ c : Int, main_exit ⟨env.global_init_code, env.config_init_ok, c⟩ = main_exit env) := by
  obtain ⟨g, cfg, r⟩ := env
  unfold main_exit init_discord
  refine ⟨?_, ?_, fun c => rfl⟩ <;> split <;> simp_all
